import Mathlib

/-!
Verification of the aiko_services core runtime against its specification.

The definitions below are a shallow embedding of the Python sources:
  * `aiko_services/framework.py` — topic routing (`topic_search`,
    `message_queue_handler`, `add_message_handler`, `remove_message_handler`),
    the registrar protocol handler (`on_registrar_message`), and `terminate`.
  * `aiko_services/actor.py` — `Message.invoke` and `ActorImpl.run`.

Python strings are Lean `String`; Python lists/dicts are Lean lists /
association lists (Python dicts preserve insertion order, as do association
lists).  Exceptions are modelled explicitly: a function that can let an
exception escape returns an `Option String` error component.
-/

namespace AikoSpec

/-! ## String splitting

Python `s.split(sep)` with an explicit one-character separator.
`splitChar sep cs` always returns a non-empty list; the empty string splits
to `[""]`, matching Python. -/

def splitChar (sep : Char) : List Char → List String
  | [] => [""]
  | c :: cs =>
    let rest := splitChar sep cs
    if c = sep then "" :: rest
    else
      match rest with
      | [] => [String.mk [c]]
      | r :: rs => String.mk (c :: r.data) :: rs

/-- Python `topic.split("/")` as used throughout `framework.py`. -/
def splitSlash (s : String) : List String := splitChar '/' s.data

/-! ## Topic router: `framework.py`, `topic_search` (lines 239-255)

`wildcard_match topic wildcardTopic` is the body of the per-wildcard-topic
loop: if the pattern's last segment is `#` the code compares
`tokens[:-1] == wildcard_tokens[:-1]`; otherwise it compares the first and
last segments only. -/

def wildcard_match (topic wildcardTopic : String) : Bool :=
  let tokens := splitSlash topic
  let wildcardTokens := splitSlash wildcardTopic
  if wildcardTokens.getLast? = some "#" then
    decide (tokens.dropLast = wildcardTokens.dropLast)
  else
    decide (tokens.head? = wildcardTokens.head? ∧
            tokens.getLast? = wildcardTokens.getLast?)

/-- `topic_search(topic, topics)`: the exact-topic membership test followed by
the scan over `private.message_handlers_wildcard_topics`, appending matches in
list order.  `topics` is the key set of `private.message_handlers`. -/
def topic_search (topic : String) (topics : List String)
    (wildcard_topics : List String) : List String :=
  (if topic ∈ topics then [topic] else []) ++
    wildcard_topics.filter (wildcard_match topic)

/-! ## Specification-side matchers

These two definitions follow the SPEC's words (not the source); they exist
only to be compared with `topic_search`. -/

/-- Modelled from the spec: a pattern whose last segment is `#` matches a
topic iff the topic's leading segments equal the pattern's segments before
the `#`, with any number of additional trailing segments, including zero. -/
def spec_hash_match (pattern topic : List String) : Bool :=
  pattern.dropLast.isPrefixOf topic

/-- Modelled from the spec: a pattern containing `+` matches a topic iff both
have the same number of segments and each pattern segment is `+` or equals
the corresponding topic segment. -/
def spec_plus_match (pattern topic : List String) : Bool :=
  decide (pattern.length = topic.length) &&
    (pattern.zip topic).all (fun pt => pt.1 == "+" || pt.1 == pt.2)

/-! ## Registrar protocol: `framework.py`, `on_registrar_message` (174-208)

The wire parser lives in `aiko_services/utilities/parser.py`, which is not
among the embedded sources, so it is modelled from the spec below. -/

/-- Modelled from the spec: `aiko_services.utilities.parser.parse` is absent
from the embedded sources.  The spec gives the wire grammar
`(command arg1 arg2 ...)`, parsed into `(command,
ordered-sequence-of-string)`; this models the flat (non-nested) case, which
covers every registrar lifecycle payload.  A payload not wrapped in
parentheses yields `("", [])`. -/
def parse (payload : String) : String × List String :=
  match payload.data with
  | '(' :: rest =>
    match rest.getLast? with
    | some ')' =>
      match splitChar ' ' rest.dropLast with
      | [] => ("", [])
      | command :: parameters => (command, parameters)
    | _ => ("", [])
  | _ => ("", [])

/-- Python `' '.join(tags)` (line 193 of `framework.py`). -/
def joinSpace : List String → String
  | [] => ""
  | [t] => t
  | t :: t2 :: ts => t ++ " " ++ joinSpace (t2 :: ts)

/-- `aiko_services.connection.ConnectionState` values used by the core. -/
inductive ConnectionState
  | DISCONNECTED
  | TRANSPORT
  | REGISTRAR
deriving DecidableEq

/-- The fields of `framework.py`'s `class public` that
`on_registrar_message` reads or writes. -/
structure RegPublic where
  connection : ConnectionState
  protocol : Option String
  tags : List String
  terminate_registrar_not_found : Bool
  topic_path : String
  topic_path_registrar : Option String
  transport : String
deriving DecidableEq

/-- The fields of `framework.py`'s `class private` that
`on_registrar_message` (and `terminate`) touch.  `registrar_handler_set`
records whether `private.registrar_handler` is non-None. -/
structure RegPrivate where
  exit_status : Nat
  registrar_handler_set : Bool
deriving DecidableEq

/-- Result of one `on_registrar_message` call: the updated module state, the
`(topic, payload)` pairs published, whether `private.registrar_handler` was
invoked, and whether `terminate` was called (`event.terminate()` requested,
stopping the event loop). -/
structure RegOutcome where
  pub : RegPublic
  priv : RegPrivate
  published : List (String × String)
  handler_invoked : Bool
  terminated : Bool
deriving DecidableEq

/-- Body of `on_registrar_message(aiko_, topic, payload_in)` (`framework.py`
174-208) after the `parse(payload_in)` call.  `parse_okay` holds exactly for `("primary", ["started", tp, ts])` (three
parameters, action `started`) and `("primary", ["stopped"])` (one parameter,
action `stopped`); every other parse yields no state change at all.
On `started`, if `public.protocol` is set, the `add` announcement is
published to `<registrar topic_path>/in`; the registrar topic path and
connection state are updated either way.  On `stopped`, the registrar topic
path is cleared, the state drops to TRANSPORT, and `terminate(1)` runs
exactly when `public.terminate_registrar_not_found` is true. -/
def registrar_transition (owner : String) (pub : RegPublic)
    (priv : RegPrivate) (command : String) (parameters : List String) :
    RegOutcome :=
  let noop : RegOutcome := ⟨pub, priv, [], false, false⟩
  match parameters with
  | [action, reg_topic_path, _timestamp] =>
    if command = "primary" ∧ action = "started" then
      ⟨{ pub with topic_path_registrar := some reg_topic_path,
                  connection := ConnectionState.REGISTRAR },
       priv,
       (match pub.protocol with
        | some protocol =>
          [(reg_topic_path ++ "/in",
            "(add " ++ pub.topic_path ++ " " ++ protocol ++ " " ++
              pub.transport ++ " " ++ owner ++ " (" ++
              joinSpace pub.tags ++ "))")]
        | none => []),
       priv.registrar_handler_set,
       false⟩
    else noop
  | [action] =>
    if command = "primary" ∧ action = "stopped" then
      ⟨{ pub with topic_path_registrar := none,
                  connection := ConnectionState.TRANSPORT },
       (if pub.terminate_registrar_not_found then
          { priv with exit_status := 1 }
        else priv),
       [],
       priv.registrar_handler_set,
       pub.terminate_registrar_not_found⟩
    else noop
  | _ => noop

/-- `on_registrar_message` proper: parse the payload, then apply the
transition above to the parsed `(command, parameters)`. -/
def on_registrar_message (owner : String) (pub : RegPublic)
    (priv : RegPrivate) (payload_in : String) : RegOutcome :=
  registrar_transition owner pub priv (parse payload_in).1
    (parse payload_in).2

/-! ## Message invocation: `actor.py`, `Message.invoke` (110-144)

An attribute found on the target object is either callable or not; a
callable is modelled by its arity together with a body whose outcome on the
given arguments is `ok`, a raised `TypeError`, or some other raised
exception.  Calling with the wrong number of arguments raises `TypeError`
before the body runs, as in Python. -/

inductive BodyOutcome
  | ok
  | typeError
  | raises (e : String)

/-- An attribute of the target object (result of `__getattribute__`). -/
inductive Attr
  | callable (arity : Nat) (body : List String → BodyOutcome)
  | notCallable

/-- `actor.py`'s `Message`: `target_object` is modelled by its attribute
table (`getattr` returns `none` when `__getattribute__` raises
`AttributeError`). -/
structure Message where
  getattr : String → Option Attr
  command : String
  arguments : List String
  target_function : Option Attr

/-- Observable result of `Message.invoke()`: how many diagnostics were
logged via `_LOGGER.error`, how many times the resolved function was
actually called, and the exception (if any) that escaped `invoke`. -/
structure InvokeResult where
  diagnostics_logged : Nat
  call_attempts : Nat
  propagated : Option String
deriving DecidableEq

/-- Lines 123-129: use the explicit `target_function` if supplied, else look
`command` up on the target (`AttributeError` leaves it `None`). -/
def Message.resolve (m : Message) : Option Attr :=
  match m.target_function with
  | some f => some f
  | none => m.getattr m.command

/-- `Message.invoke()` (`actor.py` 120-144): `None` resolution logs
"Function not found"; a non-callable logs "isn't callable"; a `TypeError`
from the call is caught and logged; any other exception from the call
escapes.  At most one call is ever attempted. -/
def Message.invoke (m : Message) : InvokeResult :=
  match m.resolve with
  | none => ⟨1, 0, none⟩
  | some Attr.notCallable => ⟨1, 0, none⟩
  | some (Attr.callable arity body) =>
    if m.arguments.length = arity then
      match body m.arguments with
      | BodyOutcome.ok => ⟨0, 1, none⟩
      | BodyOutcome.typeError => ⟨1, 1, none⟩
      | BodyOutcome.raises e => ⟨0, 1, some e⟩
    else ⟨1, 1, none⟩

/-! ## Transport dispatch: `framework.py`, `message_queue_handler` (257-275)

Each registered handler is modelled by its outcome on the one message being
dispatched: it returns a boolean or raises. -/

inductive HandlerOutcome
  | ret (b : Bool)
  | raises
deriving DecidableEq

/-- The dispatch loop of `message_queue_handler` (lines 267-275): walk the
handler list; a handler returning `True` ends dispatch; a raising handler
has its traceback printed (counted here) and dispatch continues.  Returns
the handlers actually invoked, in order, and the number of tracebacks
logged. -/
def invoke_handlers : List HandlerOutcome → List HandlerOutcome × Nat
  | [] => ([], 0)
  | HandlerOutcome.ret true :: _ => ([HandlerOutcome.ret true], 0)
  | HandlerOutcome.ret false :: rest =>
    let r := invoke_handlers rest
    (HandlerOutcome.ret false :: r.1, r.2)
  | HandlerOutcome.raises :: rest =>
    let r := invoke_handlers rest
    (HandlerOutcome.raises :: r.1, r.2 + 1)

/-- Lines 262-265: `topic_search` over the handler dict's keys, then the
concatenation of each matched pattern's handler list, in match order. -/
def matched_handler_list (topic : String)
    (message_handlers : List (String × List HandlerOutcome))
    (wildcard_topics : List String) : List HandlerOutcome :=
  (topic_search topic (message_handlers.map Prod.fst) wildcard_topics).flatMap
    (fun t => (message_handlers.lookup t).getD [])

/-- `message_queue_handler(message, _)` (`framework.py` 257-275). -/
def message_queue_handler (topic : String)
    (message_handlers : List (String × List HandlerOutcome))
    (wildcard_topics : List String) : List HandlerOutcome × Nat :=
  invoke_handlers (matched_handler_list topic message_handlers wildcard_topics)

/-! ## Actor event-loop entry: `actor.py`, `ActorImpl.run` (239-247) -/

/-- Outcome of the `aiko.process.run()` event loop call: normal return or an
escaping exception. -/
inductive LoopOutcome
  | normal
  | raises (e : String)

/-- Python dict assignment `share[k] = v` on an ordered string-keyed map. -/
def dictSetBool (k : String) (v : Bool) :
    List (String × Bool) → List (String × Bool)
  | [] => [(k, v)]
  | p :: ps => if p.1 = k then (k, v) :: ps else p :: dictSetBool k v ps

/-- Python dict read `share[k]` on an ordered string-keyed map. -/
def dictGetBool (k : String) : List (String × Bool) → Option Bool
  | [] => none
  | p :: ps => if p.1 = k then some p.2 else dictGetBool k ps

/-- Observable result of `ActorImpl.run()`: the `share` map as it stood when
the event loop was entered, the `share` map when `run` exited, the number of
`_LOGGER.error` calls, and the exception (if any) that `run` re-raised. -/
structure RunResult where
  share_at_loop_entry : List (String × Bool)
  share_final : List (String × Bool)
  errors_logged : Nat
  propagated : Option String
deriving DecidableEq

/-- `ActorImpl.run()` (`actor.py` 239-247): set `share["running"] = True`,
run the loop; on an escaping exception log the traceback and re-raise (the
trailing `share["running"] = False` is skipped); on normal return clear the
flag. -/
def ActorImpl_run (share : List (String × Bool)) (loop : LoopOutcome) :
    RunResult :=
  let share1 := dictSetBool "running" true share
  match loop with
  | LoopOutcome.normal => ⟨share1, dictSetBool "running" false share1, 0, none⟩
  | LoopOutcome.raises e => ⟨share1, share1, 1, some e⟩

/-! ## Handler registry: `framework.py`, `add_message_handler` (149-156) and
`remove_message_handler` (158-167)

Handlers are identified by numeric ids.  `message_handlers` is the ordered
dict `private.message_handlers`; `wildcard_topics` is the Python LIST
`private.message_handlers_wildcard_topics`; `subscribed`/`unsubscribed`
record the calls made on `public.message` when it is set
(`message_connected`). -/

structure RouterState where
  message_handlers : List (String × List Nat)
  wildcard_topics : List String
  message_connected : Bool
  subscribed : List String
  unsubscribed : List String
deriving DecidableEq

/-- Python dict assignment `d[k] = v` for an existing or new key. -/
def dictSetHandlers (k : String) (v : List Nat) :
    List (String × List Nat) → List (String × List Nat)
  | [] => [(k, v)]
  | p :: ps => if p.1 = k then (k, v) :: ps else p :: dictSetHandlers k v ps

/-- Python `del d[k]` on a dict. -/
def dictDelete (k : String) :
    List (String × List Nat) → List (String × List Nat)
  | [] => []
  | p :: ps => if p.1 = k then ps else p :: dictDelete k ps

/-- Python `list.remove(x)`: drop the first occurrence. -/
def removeFirstHandler (h : Nat) : List Nat → List Nat
  | [] => []
  | y :: ys => if y = h then ys else y :: removeFirstHandler h ys

/-- `add_message_handler(message_handler, topic)` (`framework.py` 149-156). -/
def add_message_handler (message_handler : Nat) (topic : String)
    (s : RouterState) : RouterState :=
  let s :=
    if (s.message_handlers.lookup topic).isSome then s
    else
      { s with
        message_handlers := s.message_handlers ++ [(topic, [])],
        wildcard_topics :=
          if '#' ∈ topic.data ∨ '+' ∈ topic.data
          then s.wildcard_topics ++ [topic]
          else s.wildcard_topics }
  let handlers := (s.message_handlers.lookup topic).getD []
  let s := { s with
    message_handlers :=
      dictSetHandlers topic (handlers ++ [message_handler])
        s.message_handlers }
  if s.message_connected then { s with subscribed := s.subscribed ++ [topic] }
  else s

/-- `remove_message_handler(message_handler, topic)` (`framework.py`
158-167).  The final statement, `del
private.message_handlers_wildcard_topics[topic]`, indexes the Python LIST
`message_handlers_wildcard_topics` with a string, which raises `TypeError`;
the mutations already performed persist and the error escapes (second
component). -/
def remove_message_handler (message_handler : Nat) (topic : String)
    (s : RouterState) : RouterState × Option String :=
  match s.message_handlers.lookup topic with
  | none => (s, none)
  | some handlers =>
    let handlers :=
      if message_handler ∈ handlers
      then removeFirstHandler message_handler handlers
      else handlers
    let s :=
      if handlers.length = 0 then
        { s with
          message_handlers := dictDelete topic s.message_handlers,
          unsubscribed :=
            if s.message_connected then s.unsubscribed ++ [topic]
            else s.unsubscribed }
      else
        { s with
          message_handlers := dictSetHandlers topic handlers
            s.message_handlers }
    if topic ∈ s.wildcard_topics then
      (s, some "TypeError: list indices must be integers or slices, not str")
    else (s, none)

/-! ## Concrete instances used by witnesses -/

/-- A registrar-channel `public` state with a protocol configured. -/
def regPub0 : RegPublic :=
  ⟨ConnectionState.TRANSPORT, some "proto:0", [], false,
   "ns/host/123", none, "mqtt"⟩

/-- A registrar-channel `public` state that treats registrar loss as fatal. -/
def regPub1 : RegPublic :=
  ⟨ConnectionState.REGISTRAR, some "proto:0", [], true,
   "ns/host/123", some "reg/topic", "mqtt"⟩

/-- A registrar-channel `private` state. -/
def regPriv0 : RegPrivate := ⟨0, false⟩

/-- A message whose command is not an attribute of its target. -/
def msg0 : Message :=
  ⟨fun _ => none, "no_such_command", [], none⟩

/-! ## Theorems -/

/-- C1: the claim says a pattern ending in `#` matches a topic iff the
topic's leading segments equal the pattern's segments before the `#`, with
any number of extra trailing segments including zero — so `ns/#` matches
`ns/a/b/state` and bare `ns`.  The code (`topic_search`, line 250, `tokens[:-1]
== wildcard_tokens[:-1]`) instead matches only topics with exactly one
segment after the prefix: it rejects both `ns/a/b/state` and `ns`, and
accepts `ns/a`.  This theorem evaluates the code at the failing inputs and
the spec-side matcher `spec_hash_match` alongside. -/
theorem c1_hash_wildcard_code_bug :
    spec_hash_match (splitSlash "ns/#") (splitSlash "ns/a/b/state") = true ∧
    topic_search "ns/a/b/state" [] ["ns/#"] = [] ∧
    spec_hash_match (splitSlash "ns/#") (splitSlash "ns") = true ∧
    topic_search "ns" [] ["ns/#"] = [] ∧
    topic_search "ns/a" [] ["ns/#"] = ["ns/#"] := by decide

/-- C2 counterexample: the claim says a `+` pattern matches iff segment
counts agree and segments match pointwise.  The code matches `ns/+/+/state`
against the two-segment topic `ns/state` (first and last segments agree),
which the claim forbids; and it fails to match `+/a` against `x/a`, which
the claim requires. -/
theorem c2_plus_wildcard_counterexample :
    ("ns/+/+/state" ∈ topic_search "ns/state" [] ["ns/+/+/state"]) ∧
    spec_plus_match (splitSlash "ns/+/+/state") (splitSlash "ns/state")
      = false ∧
    ("+/a" ∉ topic_search "x/a" [] ["+/a"]) ∧
    spec_plus_match (splitSlash "+/a") (splitSlash "x/a") = true := by decide

/-- C2 (amended): for every registered wildcard pattern whose last segment
is not `#` (in particular every `+` pattern), `topic_search` reports a match
iff the topic's first segment equals the pattern's first segment and the
topic's last segment equals the pattern's last segment, regardless of
segment counts or interior segments. -/
theorem c2_plus_wildcard_boundary (topic wt : String) (ws : List String)
    (hw : wt ∈ ws) (hnh : ¬ (splitSlash wt).getLast? = some "#") :
    (wt ∈ topic_search topic [] ws ↔
      ((splitSlash topic).head? = (splitSlash wt).head? ∧
       (splitSlash topic).getLast? = (splitSlash wt).getLast?)) := by
  unfold topic_search
  rw [List.mem_append, List.mem_filter]
  simp only [List.mem_nil_iff, if_neg, List.not_mem_nil, false_and,
    false_or, hw, true_and]
  · unfold wildcard_match
    rw [if_neg hnh]
    simp

/-- C2 witness for the amended theorem: `ns/+/+/state` matches
`ns/x/y/state`. -/
theorem c2_plus_wildcard_boundary_witness :
    "ns/+/+/state" ∈ topic_search "ns/x/y/state" [] ["ns/+/+/state"] :=
  (c2_plus_wildcard_boundary "ns/x/y/state" "ns/+/+/state" ["ns/+/+/state"]
    (by decide) (by decide)).mpr (by decide)

/-- C3: a payload of the exact shape `(primary started <topic_path>
<timestamp>)`, received while `public.protocol` is set, makes
`on_registrar_message` publish `(add <own-topic-path> <protocol>
<transport> <owner> (<tags>))` to `<topic_path>/in`, record `<topic_path>`
as the registrar topic path, and set the connection state to REGISTRAR. -/
theorem c3_primary_started_announce (owner payload tp ts protocol : String)
    (pub : RegPublic) (priv : RegPrivate)
    (hparse : parse payload = ("primary", ["started", tp, ts]))
    (hproto : pub.protocol = some protocol) :
    (on_registrar_message owner pub priv payload).published =
      [(tp ++ "/in",
        "(add " ++ pub.topic_path ++ " " ++ protocol ++ " " ++
          pub.transport ++ " " ++ owner ++ " (" ++
          joinSpace pub.tags ++ "))")] ∧
    (on_registrar_message owner pub priv payload).pub.topic_path_registrar
      = some tp ∧
    (on_registrar_message owner pub priv payload).pub.connection
      = ConnectionState.REGISTRAR := by
  unfold on_registrar_message
  rw [hparse]
  simp [registrar_transition, hproto]

/-- C3 witness: Scenario A at concrete values. -/
theorem c3_primary_started_announce_witness :
    (on_registrar_message "owner" regPub0 regPriv0
        "(primary started reg/topic 12345)").published =
      [("reg/topic" ++ "/in",
        "(add " ++ regPub0.topic_path ++ " " ++ "proto:0" ++ " " ++
          regPub0.transport ++ " " ++ "owner" ++ " (" ++
          joinSpace regPub0.tags ++ "))")] ∧
    (on_registrar_message "owner" regPub0 regPriv0
        "(primary started reg/topic 12345)").pub.topic_path_registrar
      = some "reg/topic" ∧
    (on_registrar_message "owner" regPub0 regPriv0
        "(primary started reg/topic 12345)").pub.connection
      = ConnectionState.REGISTRAR :=
  c3_primary_started_announce "owner" "(primary started reg/topic 12345)"
    "reg/topic" "12345" "proto:0" regPub0 regPriv0 (by decide) rfl

/-- C4: a payload of the exact shape `(primary stopped)` clears the recorded
registrar topic path, sets the connection state to TRANSPORT, and initiates
process termination (with exit status 1) iff
`public.terminate_registrar_not_found` is true; with the flag false the
private state (hence the exit status) is unchanged. -/
theorem c4_primary_stopped (owner payload : String) (pub : RegPublic)
    (priv : RegPrivate)
    (hparse : parse payload = ("primary", ["stopped"])) :
    (on_registrar_message owner pub priv payload).pub.topic_path_registrar
      = none ∧
    (on_registrar_message owner pub priv payload).pub.connection
      = ConnectionState.TRANSPORT ∧
    (on_registrar_message owner pub priv payload).terminated
      = pub.terminate_registrar_not_found ∧
    (pub.terminate_registrar_not_found = true →
      (on_registrar_message owner pub priv payload).priv.exit_status = 1) ∧
    (pub.terminate_registrar_not_found = false →
      (on_registrar_message owner pub priv payload).priv = priv) := by
  unfold on_registrar_message
  rw [hparse]
  cases h : pub.terminate_registrar_not_found <;>
    simp [registrar_transition, h]

/-- C4 witness: Scenario C at concrete values (flag set). -/
theorem c4_primary_stopped_witness :
    (on_registrar_message "owner" regPub1 regPriv0
        "(primary stopped)").pub.topic_path_registrar = none ∧
    (on_registrar_message "owner" regPub1 regPriv0
        "(primary stopped)").pub.connection = ConnectionState.TRANSPORT ∧
    (on_registrar_message "owner" regPub1 regPriv0
        "(primary stopped)").terminated
      = regPub1.terminate_registrar_not_found ∧
    (regPub1.terminate_registrar_not_found = true →
      (on_registrar_message "owner" regPub1 regPriv0
          "(primary stopped)").priv.exit_status = 1) ∧
    (regPub1.terminate_registrar_not_found = false →
      (on_registrar_message "owner" regPub1 regPriv0
          "(primary stopped)").priv = regPriv0) :=
  c4_primary_stopped "owner" "(primary stopped)" regPub1 regPriv0 (by decide)

/-- C5: a payload parsing to anything other than
`("primary", ["started", tp, ts])` or `("primary", ["stopped"])` leaves the
public and private state unchanged, publishes nothing, invokes no registrar
handler, and requests no termination — `on_registrar_message` returns the
no-op outcome (and, being total, raises nothing). -/
theorem c5_malformed_ignored (owner payload : String) (pub : RegPublic)
    (priv : RegPrivate)
    (hstarted : ∀ tp ts, ¬ parse payload = ("primary", ["started", tp, ts]))
    (hstopped : ¬ parse payload = ("primary", ["stopped"])) :
    on_registrar_message owner pub priv payload
      = ⟨pub, priv, [], false, false⟩ := by
  unfold on_registrar_message
  rcases hp : parse payload with ⟨c, ps⟩
  rw [hp] at hstopped
  have hA : ∀ tp ts, ¬ (c = "primary" ∧ ps = ["started", tp, ts]) := by
    intro tp ts hand
    exact hstarted tp ts (by rw [hp, hand.1, hand.2])
  have hB : ¬ (c = "primary" ∧ ps = ["stopped"]) := by
    intro hand
    exact hstopped (by rw [hand.1, hand.2])
  rcases ps with _ | ⟨a, _ | ⟨b, _ | ⟨d, _ | rest⟩⟩⟩
  · rfl
  · by_cases hca : c = "primary" ∧ a = "stopped"
    · exact absurd ⟨hca.1, by rw [hca.2]⟩ hB
    · show (if c = "primary" ∧ a = "stopped" then _ else _) = _
      rw [if_neg hca]
  · rfl
  · by_cases hca : c = "primary" ∧ a = "started"
    · exact absurd ⟨hca.1, by rw [hca.2]⟩ (hA b d)
    · show (if c = "primary" ∧ a = "started" then _ else _) = _
      rw [if_neg hca]
  · rfl

/-- C5 witness: a malformed `(primary stopped extra)` payload is a no-op. -/
theorem c5_malformed_ignored_witness :
    on_registrar_message "owner" regPub0 regPriv0 "(primary stopped extra)"
      = ⟨regPub0, regPriv0, [], false, false⟩ :=
  c5_malformed_ignored "owner" "(primary stopped extra)" regPub0 regPriv0
    (fun tp ts => by simp [parse, splitChar]) (by decide)

/-- C6: `Message.invoke` never lets any of the three resolution failures
escape — command not found, resolved attribute not callable, or a
`TypeError` from the call (including an argument-count mismatch).  Each such
case logs exactly one diagnostic; the two non-call failures make no call at
all; there is never more than one call attempt; and any other exception
raised by the call propagates to the caller. -/
theorem c6_invoke_isolation (m : Message) :
    (m.resolve = none → m.invoke = ⟨1, 0, none⟩) ∧
    (m.resolve = some Attr.notCallable → m.invoke = ⟨1, 0, none⟩) ∧
    (∀ arity body, m.resolve = some (Attr.callable arity body) →
      ¬ m.arguments.length = arity → m.invoke = ⟨1, 1, none⟩) ∧
    (∀ arity body, m.resolve = some (Attr.callable arity body) →
      m.arguments.length = arity →
      body m.arguments = BodyOutcome.typeError →
      m.invoke = ⟨1, 1, none⟩) ∧
    (∀ arity body e, m.resolve = some (Attr.callable arity body) →
      m.arguments.length = arity →
      body m.arguments = BodyOutcome.raises e →
      m.invoke = ⟨0, 1, some e⟩) ∧
    m.invoke.call_attempts ≤ 1 := by
  refine ⟨?_, ?_, ?_, ?_, ?_, ?_⟩
  · intro h; simp [Message.invoke, h]
  · intro h; simp [Message.invoke, h]
  · intro arity body h hne; simp [Message.invoke, h, hne]
  · intro arity body h hlen hbody
    simp [Message.invoke, h, hlen, hbody]
  · intro arity body e h hlen hbody
    simp [Message.invoke, h, hlen, hbody]
  · unfold Message.invoke
    rcases m.resolve with _ | f
    · simp
    · rcases f with ⟨arity, body⟩ | _
      · dsimp only
        split
        · cases body m.arguments <;> simp
        · simp
      · simp

/-- C6 witness: Scenario D — a command not present on the target logs one
diagnostic, attempts no call, and raises nothing. -/
theorem c6_invoke_isolation_witness : Message.invoke msg0 = ⟨1, 0, none⟩ :=
  (c6_invoke_isolation msg0).1 rfl

/-- Helper: with no handler returning `True`, the dispatch loop invokes
every handler in the list. -/
theorem invoke_handlers_no_true (l : List HandlerOutcome)
    (h : ∀ x ∈ l, ¬ x = HandlerOutcome.ret true) :
    (invoke_handlers l).1 = l := by
  induction l with
  | nil => rfl
  | cons a t ih =>
    have ha := h a (List.mem_cons_self a t)
    have ht : ∀ x ∈ t, ¬ x = HandlerOutcome.ret true :=
      fun x hx => h x (List.mem_cons_of_mem a hx)
    cases a with
    | ret b =>
      cases b with
      | true => exact absurd rfl ha
      | false => simp [invoke_handlers, ih ht]
    | raises => simp [invoke_handlers, ih ht]

/-- Helper: if position `i` holds the first handler returning `True`, the
dispatch loop invokes exactly the handlers up to and including it. -/
theorem invoke_handlers_first_true (l : List HandlerOutcome) :
    ∀ i : Nat, l[i]? = some (HandlerOutcome.ret true) →
    (∀ j, j < i → ¬ l[j]? = some (HandlerOutcome.ret true)) →
    (invoke_handlers l).1 = l.take (i + 1) := by
  induction l with
  | nil => intro i hi _; simp at hi
  | cons a t ih =>
    intro i hi hfirst
    cases i with
    | zero =>
      simp only [List.getElem?_cons_zero, Option.some.injEq] at hi
      subst hi
      simp [invoke_handlers]
    | succ n =>
      have h0 : ¬ a = HandlerOutcome.ret true := by
        have := hfirst 0 (Nat.succ_pos n)
        simpa using this
      have hi' : t[n]? = some (HandlerOutcome.ret true) := by simpa using hi
      have hfirst' : ∀ j, j < n → ¬ t[j]? = some (HandlerOutcome.ret true) := by
        intro j hj
        have := hfirst (j + 1) (Nat.succ_lt_succ hj)
        simpa using this
      have ihr := ih n hi' hfirst'
      cases a with
      | ret b =>
        cases b with
        | true => exact absurd rfl h0
        | false => simp [invoke_handlers, ihr]
      | raises => simp [invoke_handlers, ihr]

/-- C7: dispatch invokes the handlers of all matched patterns in list order
(every handler when none returns `True`), and stops at the first handler
returning `True`: the invoked handlers are exactly the prefix of the
matched-handler list up to and including that handler, so handlers after it
are never invoked for this message. -/
theorem c7_dispatch_short_circuit (topic : String)
    (mh : List (String × List HandlerOutcome)) (wt : List String) :
    ((∀ h ∈ matched_handler_list topic mh wt,
        ¬ h = HandlerOutcome.ret true) →
      (message_queue_handler topic mh wt).1
        = matched_handler_list topic mh wt) ∧
    (∀ i : Nat,
      (matched_handler_list topic mh wt)[i]?
        = some (HandlerOutcome.ret true) →
      (∀ j, j < i →
        ¬ (matched_handler_list topic mh wt)[j]?
            = some (HandlerOutcome.ret true)) →
      (message_queue_handler topic mh wt).1
        = (matched_handler_list topic mh wt).take (i + 1)) :=
  ⟨fun h => invoke_handlers_no_true _ h,
   fun i hi hfirst => invoke_handlers_first_true _ i hi hfirst⟩

/-- C7 witness: Scenario E — two wildcard patterns both match `ns/x/y`; the
first registered handler returns `True`, so only the one-element prefix is
invoked and the second pattern's handler never runs. -/
theorem c7_dispatch_short_circuit_witness :
    (message_queue_handler "ns/x/y"
        [("ns/+/y", [HandlerOutcome.ret true]),
         ("ns/+/+/y", [HandlerOutcome.ret false])]
        ["ns/+/y", "ns/+/+/y"]).1
      = (matched_handler_list "ns/x/y"
          [("ns/+/y", [HandlerOutcome.ret true]),
           ("ns/+/+/y", [HandlerOutcome.ret false])]
          ["ns/+/y", "ns/+/+/y"]).take (0 + 1) :=
  (c7_dispatch_short_circuit "ns/x/y"
      [("ns/+/y", [HandlerOutcome.ret true]),
       ("ns/+/+/y", [HandlerOutcome.ret false])]
      ["ns/+/y", "ns/+/+/y"]).2 0 (by decide)
    (fun j hj => absurd hj (Nat.not_lt_zero j))

/-- C8: a raising handler is caught by the dispatch loop — one traceback is
logged, nothing escapes (the function returns normally), and the remaining
handlers are invoked exactly as they would have been: for any prefix of
non-`True` handlers followed by a raising handler, dispatch continues into
the rest of the list unchanged. -/
theorem c8_handler_fault_isolation (pre post : List HandlerOutcome)
    (hpre : ∀ h ∈ pre, ¬ h = HandlerOutcome.ret true) :
    invoke_handlers (pre ++ HandlerOutcome.raises :: post) =
      (pre ++ HandlerOutcome.raises :: (invoke_handlers post).1,
       (invoke_handlers pre).2 + 1 + (invoke_handlers post).2) := by
  induction pre with
  | nil => simp [invoke_handlers, Prod.ext_iff]; omega
  | cons a t ih =>
    have ha := hpre a (List.mem_cons_self a t)
    have ht : ∀ x ∈ t, ¬ x = HandlerOutcome.ret true :=
      fun x hx => hpre x (List.mem_cons_of_mem a hx)
    have ihr := ih ht
    cases a with
    | ret b =>
      cases b with
      | true => exact absurd rfl ha
      | false =>
        have h1 : invoke_handlers (HandlerOutcome.ret false ::
            (t ++ HandlerOutcome.raises :: post)) =
            (HandlerOutcome.ret false ::
              (invoke_handlers (t ++ HandlerOutcome.raises :: post)).1,
             (invoke_handlers (t ++ HandlerOutcome.raises :: post)).2) := rfl
        have h2 : invoke_handlers (HandlerOutcome.ret false :: t) =
            (HandlerOutcome.ret false :: (invoke_handlers t).1,
             (invoke_handlers t).2) := rfl
        rw [List.cons_append, h1, ihr, h2]
        rfl
    | raises =>
      have h1 : invoke_handlers (HandlerOutcome.raises ::
          (t ++ HandlerOutcome.raises :: post)) =
          (HandlerOutcome.raises ::
            (invoke_handlers (t ++ HandlerOutcome.raises :: post)).1,
           (invoke_handlers (t ++ HandlerOutcome.raises :: post)).2 + 1) := rfl
      have h2 : invoke_handlers (HandlerOutcome.raises :: t) =
          (HandlerOutcome.raises :: (invoke_handlers t).1,
           (invoke_handlers t).2 + 1) := rfl
      rw [List.cons_append, h1, ihr, h2]
      dsimp only
      simp only [Prod.mk.injEq]
      exact ⟨rfl, by omega⟩

/-- C8 witness: a raising handler between two `False` handlers logs one
traceback and does not stop the second `False` handler from running. -/
theorem c8_handler_fault_isolation_witness :
    invoke_handlers ([HandlerOutcome.ret false] ++ HandlerOutcome.raises ::
        [HandlerOutcome.ret false]) =
      ([HandlerOutcome.ret false] ++ HandlerOutcome.raises ::
        (invoke_handlers [HandlerOutcome.ret false]).1,
       (invoke_handlers [HandlerOutcome.ret false]).2 + 1 +
        (invoke_handlers [HandlerOutcome.ret false]).2) :=
  c8_handler_fault_isolation [HandlerOutcome.ret false]
    [HandlerOutcome.ret false] (by decide)

/-- Helper: assigning `share[k] = v` makes a subsequent read of `k` yield
`v`. -/
theorem dictSetBool_get (k : String) (v : Bool)
    (d : List (String × Bool)) :
    dictGetBool k (dictSetBool k v d) = some v := by
  induction d with
  | nil => simp [dictSetBool, dictGetBool]
  | cons p ps ih =>
    by_cases h : p.1 = k
    · simp [dictSetBool, dictGetBool, h]
    · simp [dictSetBool, dictGetBool, h, ih]

/-- C9 counterexample: the claim says the shared `running` flag is false
when `run()` exits via a loop exception.  In the code the clearing
assignment sits after the `try`/`except` and is skipped on the re-raise
path, so the flag is still true. -/
theorem c9_exception_leaves_running_true :
    (ActorImpl_run [("running", false)]
        (LoopOutcome.raises "boom")).propagated = some "boom" ∧
    (ActorImpl_run [("running", false)]
        (LoopOutcome.raises "boom")).errors_logged = 1 ∧
    ¬ (dictGetBool "running" (ActorImpl_run [("running", false)]
        (LoopOutcome.raises "boom")).share_final = some false) := by decide

/-- C9 (amended): `run()` sets `running` to true immediately before
entering the event loop and to false on normal loop exit; an exception
escaping the loop is logged and re-raised, and on that path the `running`
flag remains true (it is cleared only on normal exit). -/
theorem c9_run_running_flag (share : List (String × Bool))
    (o : LoopOutcome) :
    (dictGetBool "running" (ActorImpl_run share o).share_at_loop_entry
      = some true) ∧
    (o = LoopOutcome.normal →
      dictGetBool "running" (ActorImpl_run share o).share_final
        = some false ∧
      (ActorImpl_run share o).errors_logged = 0 ∧
      (ActorImpl_run share o).propagated = none) ∧
    (∀ e, o = LoopOutcome.raises e →
      (ActorImpl_run share o).errors_logged = 1 ∧
      (ActorImpl_run share o).propagated = some e ∧
      dictGetBool "running" (ActorImpl_run share o).share_final
        = some true) := by
  cases o <;> simp [ActorImpl_run, dictSetBool_get]

/-- C9 witness for the amended theorem: concrete raising loop. -/
theorem c9_run_running_flag_witness :
    (ActorImpl_run [("running", false)]
        (LoopOutcome.raises "x")).errors_logged = 1 ∧
    (ActorImpl_run [("running", false)]
        (LoopOutcome.raises "x")).propagated = some "x" ∧
    dictGetBool "running" (ActorImpl_run [("running", false)]
        (LoopOutcome.raises "x")).share_final = some true :=
  (c9_run_running_flag [("running", false)]
    (LoopOutcome.raises "x")).2.2 "x" rfl

/-- C10: removing the last handler of an exact topic deletes the entry and
unsubscribes (first conjunct, as the claim says); but for a topic present in
the wildcard list, the trailing `del
private.message_handlers_wildcard_topics[topic]` indexes a Python list with
a string and raises `TypeError` — both when the handler list becomes empty
and when handlers remain — and the pattern is never removed from the
wildcard list, contradicting the claim's "without raising". -/
theorem c10_wildcard_remove_raises :
    (remove_message_handler 7 "a/b" ⟨[("a/b", [7])], [], true, [], []⟩
      = (⟨[], [], true, [], ["a/b"]⟩, none)) ∧
    ((remove_message_handler 7 "ns/#"
        ⟨[("ns/#", [7])], ["ns/#"], true, [], []⟩).2.isSome = true) ∧
    ((remove_message_handler 7 "ns/#"
        ⟨[("ns/#", [7])], ["ns/#"], true, [], []⟩).1.wildcard_topics
      = ["ns/#"]) ∧
    ((remove_message_handler 7 "ns/#"
        ⟨[("ns/#", [7, 8])], ["ns/#"], true, [], []⟩).2.isSome = true) ∧
    ((remove_message_handler 7 "ns/#"
        ⟨[("ns/#", [7, 8])], ["ns/#"], true, [], []⟩).1.wildcard_topics
      = ["ns/#"]) := by decide

end AikoSpec
